import Mathlib

/-!
# Verification of the xvisio-rs wire protocol codec and streaming engine

Shallow embedding of the XR50 driver sources (`src/xvisio-rs/src/protocol.rs`,
`src/xvisio-rs/src/slam.rs`, `src/xvisio-rs/src/device.rs`,
`src/xvisio-rs/src/types.rs`).

Modelling conventions:
* a Rust `u8` byte is `Fin 256`; byte buffers are `List (Fin 256)`; slice
  indexing that the Rust code performs only after a length check is modelled
  with `List.getD` (default 0);
* `f64` arithmetic is modelled over `ℚ` where every value the code computes is
  an exactly representable dyadic rational (fixed-point decoding, plausibility
  gate, confidence clamping), and over `ℝ` where square roots or trigonometry
  appear (`rotation_to_quaternion`, `quaternion_to_euler`);
* `Instant`-based wall-clock values (`epoch.elapsed()`) are passed in as an
  explicit real-valued `host_timestamp_s` parameter;
* the `XVISIO_ROTATION_PARSE` environment variable consulted by
  `rotation_parse_mode()` is passed in as an explicit `RotationParseMode`
  parameter (default `auto`);
* the crossbeam bounded channel used by `slam.rs` is modelled as an explicit
  queue state (see `ChannelState`); its `try_send` semantics is modelled from
  the spec since the channel library is external.
-/

namespace Xvisio

/-- A Rust `u8`. -/
abbrev Byte := Fin 256

/-- Indexing into a byte buffer, defaulting to 0 out of range (the Rust code
only indexes after establishing the bound). -/
def byteAt (data : List Byte) (i : ℕ) : Byte := data.getD i 0

/-- `i16::from_le_bytes` (protocol.rs): two's-complement signed 16-bit value
from two little-endian bytes. -/
def i16_from_le (b0 b1 : Byte) : ℤ :=
  let v : ℕ := b0.val + 256 * b1.val
  if v < 32768 then (v : ℤ) else (v : ℤ) - 65536

/-- `u32::from_le_bytes` (protocol.rs). -/
def u32_from_le (b0 b1 b2 b3 : Byte) : ℕ :=
  b0.val + 256 * b1.val + 65536 * b2.val + 16777216 * b3.val

/-- `i32::from_le_bytes` (protocol.rs): two's-complement signed 32-bit value
from four little-endian bytes. -/
def i32_from_le (b0 b1 b2 b3 : Byte) : ℤ :=
  let v : ℕ := u32_from_le b0 b1 b2 b3
  if v < 2147483648 then (v : ℤ) else (v : ℤ) - 4294967296

/-- Packet geometry constant `REPORT_SIZE` (protocol.rs). -/
def REPORT_SIZE : ℕ := 63

/-- Fixed-point scale factor `SCALE = 2^(-14)` (protocol.rs). The `f64`
constant `6.103515625e-05` is exactly `1 / 16384`. -/
def SCALE : ℚ := 1 / 16384

/-- SLAM packet header echo `SLAM_HEADER = [0x01, 0xA2, 0x33]` (protocol.rs). -/
def SLAM_HEADER : List Byte := [0x01, 0xA2, 0x33]

/-- Decode a signed 16-bit little-endian field and apply the fixed-point
scale, as `i16::from_le_bytes([data[i], data[i+1]]) as f64 * SCALE`. The
result is an exact dyadic rational, so `f64` computes it exactly. -/
def i16_scaled (data : List Byte) (i : ℕ) : ℚ :=
  (i16_from_le (byteAt data i) (byteAt data (i + 1)) : ℚ) * SCALE

/-- Error kinds from error.rs (`XvisioError`), restricted to the variants the
protocol codec produces. -/
inductive XvisioError where
  | InvalidResponse (b : Byte)
  | CommandMismatch
  | HidCommand (msg : String)
  | StreamStopped
  | Timeout
deriving DecidableEq, Repr

/-- `validate_response` (protocol.rs lines 102–116): check the 0x01
device-to-host tag and the command echo, returning the payload offset
`1 + expected_cmd.len()`. `response.first().copied().unwrap_or(0)` is
`byteAt response 0`. -/
def validate_response (response expected_cmd : List Byte) :
    Except XvisioError ℕ :=
  if response = [] ∨ byteAt response 0 ≠ 0x01 then
    .error (.InvalidResponse (byteAt response 0))
  else if response.length < 1 + expected_cmd.length then
    .error .CommandMismatch
  else if (response.drop 1).take expected_cmd.length ≠ expected_cmd then
    .error .CommandMismatch
  else
    .ok (1 + expected_cmd.length)

/-- `build_command` (protocol.rs lines 35–41): 63-byte buffer starting with
the 0x02 host-to-device tag, then `cmd` truncated to 62 bytes, zero padded. -/
def build_command (cmd : List Byte) : List Byte :=
  let len := min cmd.length (REPORT_SIZE - 1)
  (0x02 : Byte) :: (cmd.take len ++ List.replicate (REPORT_SIZE - 1 - len) 0)

/-- Command bytes `CMD_CONFIGURE` (protocol.rs). -/
def CMD_CONFIGURE : List Byte := [0x19, 0x95]

/-- `build_configure_cmd_with_uvc` (protocol.rs lines 46–57). -/
def build_configure_cmd_with_uvc (edge : Bool) (uvc_mode : Byte)
    (embedded_algo : Bool) : List Byte :=
  build_command
    (CMD_CONFIGURE ++
      [if edge then 1 else 0, uvc_mode, if embedded_algo then 1 else 0])

/-- A 3×3 row-major matrix with exact dyadic-rational entries, used for the
wire-decoded rotation payload (`[[f64; 3]; 3]` whose entries are `i16 * 2^-14`,
hence exact). -/
structure QMat3 where
  m00 : ℚ
  m01 : ℚ
  m02 : ℚ
  m10 : ℚ
  m11 : ℚ
  m12 : ℚ
  m20 : ℚ
  m21 : ℚ
  m22 : ℚ
deriving DecidableEq, Repr

/-- A 3×3 row-major matrix with real entries (`[[f64; 3]; 3]` modelled over
`ℝ`), used on the geometry side where square roots appear. -/
structure RMat3 where
  m00 : ℝ
  m01 : ℝ
  m02 : ℝ
  m10 : ℝ
  m11 : ℝ
  m12 : ℝ
  m20 : ℝ
  m21 : ℝ
  m22 : ℝ

/-- Cast an exactly-represented wire matrix into the real-valued model. -/
@[simp] def QMat3.toR (m : QMat3) : RMat3 :=
  ⟨m.m00, m.m01, m.m02, m.m10, m.m11, m.m12, m.m20, m.m21, m.m22⟩

/-- A quaternion `[w, x, y, z]` (Hamilton convention, real part first), the
`[f64; 4]` of protocol.rs modelled over `ℝ`. -/
structure Quat where
  w : ℝ
  x : ℝ
  y : ℝ
  z : ℝ

/-- `quaternion_to_rotation` (protocol.rs lines 152–170): standard Hamilton
expansion of `[w, x, y, z]` into a row-major 3×3 matrix. -/
def quaternion_to_rotation (w x y z : ℝ) : RMat3 :=
  ⟨1 - 2 * (y * y + z * z), 2 * (x * y - z * w), 2 * (x * z + y * w),
   2 * (x * y + z * w), 1 - 2 * (x * x + z * z), 2 * (y * z - x * w),
   2 * (x * z - y * w), 2 * (y * z + x * w), 1 - 2 * (x * x + y * y)⟩

/-- `rotation_to_quaternion` (protocol.rs lines 173–208): trace-dispatched
matrix-to-quaternion conversion. The local `s` of each branch is inlined. -/
noncomputable def rotation_to_quaternion (m : RMat3) : Quat :=
  if 0 < m.m00 + m.m11 + m.m22 then
    ⟨0.25 * (Real.sqrt (m.m00 + m.m11 + m.m22 + 1) * 2),
     (m.m21 - m.m12) / (Real.sqrt (m.m00 + m.m11 + m.m22 + 1) * 2),
     (m.m02 - m.m20) / (Real.sqrt (m.m00 + m.m11 + m.m22 + 1) * 2),
     (m.m10 - m.m01) / (Real.sqrt (m.m00 + m.m11 + m.m22 + 1) * 2)⟩
  else if m.m11 < m.m00 ∧ m.m22 < m.m00 then
    ⟨(m.m21 - m.m12) / (Real.sqrt (1 + m.m00 - m.m11 - m.m22) * 2),
     0.25 * (Real.sqrt (1 + m.m00 - m.m11 - m.m22) * 2),
     (m.m01 + m.m10) / (Real.sqrt (1 + m.m00 - m.m11 - m.m22) * 2),
     (m.m02 + m.m20) / (Real.sqrt (1 + m.m00 - m.m11 - m.m22) * 2)⟩
  else if m.m22 < m.m11 then
    ⟨(m.m02 - m.m20) / (Real.sqrt (1 + m.m11 - m.m00 - m.m22) * 2),
     (m.m01 + m.m10) / (Real.sqrt (1 + m.m11 - m.m00 - m.m22) * 2),
     0.25 * (Real.sqrt (1 + m.m11 - m.m00 - m.m22) * 2),
     (m.m12 + m.m21) / (Real.sqrt (1 + m.m11 - m.m00 - m.m22) * 2)⟩
  else
    ⟨(m.m10 - m.m01) / (Real.sqrt (1 + m.m22 - m.m00 - m.m11) * 2),
     (m.m02 + m.m20) / (Real.sqrt (1 + m.m22 - m.m00 - m.m11) * 2),
     (m.m12 + m.m21) / (Real.sqrt (1 + m.m22 - m.m00 - m.m11) * 2),
     0.25 * (Real.sqrt (1 + m.m22 - m.m00 - m.m11) * 2)⟩

/-- `f64::atan2(y, x)` modelled over `ℝ` by the usual case analysis. -/
noncomputable def atan2 (y x : ℝ) : ℝ :=
  if 0 < x then Real.arctan (y / x)
  else if x < 0 then
    (if 0 ≤ y then Real.arctan (y / x) + Real.pi
     else Real.arctan (y / x) - Real.pi)
  else if 0 < y then Real.pi / 2
  else if y < 0 then -(Real.pi / 2)
  else 0

/-- `f64::to_degrees`. -/
noncomputable def toDegrees (r : ℝ) : ℝ := r * 180 / Real.pi

/-- `f64::clamp` over `ℝ`. -/
def clampR (v lo hi : ℝ) : ℝ := max lo (min v hi)

/-- `f64::clamp` over `ℚ` (used for the confidence field, whose value is an
exact dyadic rational). -/
def clampQ (v lo hi : ℚ) : ℚ := max lo (min v hi)

/-- `quaternion_to_euler` (protocol.rs lines 144–149): Euler angles
`[roll, pitch, yaw]` in degrees (YXZ order with Z-axis flip). -/
noncomputable def quaternion_to_euler (w x y z : ℝ) : ℝ × ℝ × ℝ :=
  (toDegrees (atan2 (2 * (x * y + w * z)) (1 - 2 * (x * x + z * z))),
   toDegrees (Real.arcsin (clampR (2 * (y * z - w * x)) (-1) 1)),
   toDegrees (atan2 (-2 * (x * z + w * y)) (1 - 2 * (x * x + y * y))))

/-- `parse_rotation_matrix` (protocol.rs lines 210–220): nine signed 16-bit
little-endian values at byte offsets 19,21,…,35, scaled by `2^-14`, filled
row-major. -/
def parse_rotation_matrix (data : List Byte) : QMat3 :=
  ⟨i16_scaled data 19, i16_scaled data 21, i16_scaled data 23,
   i16_scaled data 25, i16_scaled data 27, i16_scaled data 29,
   i16_scaled data 31, i16_scaled data 33, i16_scaled data 35⟩

/-- `is_plausible_rotation_matrix` (protocol.rs lines 246–256). Note that the
local `norm` is the SUM OF SQUARES of a row (the squared Euclidean norm); it
is compared against `0.5..=1.5` without taking a square root. All compared
values are exact dyadic rationals with granularity `2^-28`, and no such
rational separates the `f64` literals `0.5`, `1.5`, `0.7` from the exact
rationals `1/2`, `3/2`, `7/10`, so the `ℚ` comparisons below coincide with
the `f64` comparisons in the source. -/
def is_plausible_rotation_matrix (m : QMat3) : Bool :=
  let n0 := m.m00 * m.m00 + m.m01 * m.m01 + m.m02 * m.m02
  let n1 := m.m10 * m.m10 + m.m11 * m.m11 + m.m12 * m.m12
  let n2 := m.m20 * m.m20 + m.m21 * m.m21 + m.m22 * m.m22
  if ¬(1/2 ≤ n0 ∧ n0 ≤ 3/2) ∨ ¬(1/2 ≤ n1 ∧ n1 ≤ 3/2) ∨
      ¬(1/2 ≤ n2 ∧ n2 ≤ 3/2) then
    false
  else
    decide (|m.m00 * m.m10 + m.m01 * m.m11 + m.m02 * m.m12| < 7/10) &&
    decide (|m.m00 * m.m20 + m.m01 * m.m21 + m.m02 * m.m22| < 7/10) &&
    decide (|m.m10 * m.m20 + m.m11 * m.m21 + m.m12 * m.m22| < 7/10)

/-- `RotationParseMode` (protocol.rs lines 222–227). The mode is chosen once
per process from `XVISIO_ROTATION_PARSE`; it is passed explicitly here, with
`auto` the default. -/
inductive RotationParseMode where
  | auto
  | matrix
  | quaternion
deriving DecidableEq, Repr

/-- `Pose` (types.rs lines 4–20). -/
structure Pose where
  translation : ℚ × ℚ × ℚ
  rotation : RMat3
  /-- Stored `[qx, qy, qz, qw]` (SDK-facing convention). -/
  quaternion : ℝ × ℝ × ℝ × ℝ
  timestamp_us : ℕ
  host_timestamp_s : ℝ
  confidence : ℚ
  euler_deg : ℝ × ℝ × ℝ

/-- `ImuData` (types.rs lines 25–30). -/
structure ImuData where
  accelerometer : ℚ × ℚ × ℚ
  gyroscope : ℚ × ℚ × ℚ

/-- `SlamSample` (types.rs lines 34–39). -/
structure SlamSample where
  pose : Pose
  imu : Option ImuData
  raw_extended : List Byte

/-- `parse_slam_packet` (protocol.rs lines 284–369). The `epoch : Instant`
argument is modelled by passing `epoch.elapsed().as_secs_f64()` directly as
`host_timestamp_s`; the process-wide rotation parse mode is passed as `mode`. -/
noncomputable def parse_slam_packet (mode : RotationParseMode)
    (data : List Byte) (host_timestamp_s : ℝ) : Option SlamSample :=
  if data.length < REPORT_SIZE then
    none
  else if ¬(byteAt data 0 = 0x01 ∧ byteAt data 1 = 0xA2 ∧
      byteAt data 2 = 0x33) then
    none
  else
    let timestamp_us : ℕ :=
      u32_from_le (byteAt data 3) (byteAt data 4) (byteAt data 5)
        (byteAt data 6)
    let tx : ℚ := (i32_from_le (byteAt data 7) (byteAt data 8) (byteAt data 9)
        (byteAt data 10) : ℚ) * SCALE
    let ty : ℚ := (i32_from_le (byteAt data 11) (byteAt data 12)
        (byteAt data 13) (byteAt data 14) : ℚ) * SCALE
    let tz : ℚ := (i32_from_le (byteAt data 15) (byteAt data 16)
        (byteAt data 17) (byteAt data 18) : ℚ) * SCALE
    let parsed_quaternion : RMat3 × ℝ × ℝ × ℝ × ℝ :=
      (quaternion_to_rotation ((i16_scaled data 19 : ℚ) : ℝ)
         ((i16_scaled data 21 : ℚ) : ℝ) ((i16_scaled data 23 : ℚ) : ℝ)
         ((i16_scaled data 25 : ℚ) : ℝ),
       ((i16_scaled data 19 : ℚ) : ℝ), ((i16_scaled data 21 : ℚ) : ℝ),
       ((i16_scaled data 23 : ℚ) : ℝ), ((i16_scaled data 25 : ℚ) : ℝ))
    let rq : RMat3 × ℝ × ℝ × ℝ × ℝ :=
      match mode with
      | .quaternion => parsed_quaternion
      | .matrix =>
        let m := parse_rotation_matrix data
        let q := rotation_to_quaternion m.toR
        (m.toR, q.w, q.x, q.y, q.z)
      | .auto =>
        let m := parse_rotation_matrix data
        if is_plausible_rotation_matrix m then
          let q := rotation_to_quaternion m.toR
          (m.toR, q.w, q.x, q.y, q.z)
        else
          parsed_quaternion
    some
      { pose :=
          { translation := (tx, ty, tz)
            rotation := rq.1
            quaternion := (rq.2.2.1, rq.2.2.2.1, rq.2.2.2.2, rq.2.1)
            timestamp_us := timestamp_us
            host_timestamp_s := host_timestamp_s
            confidence := clampQ (i16_scaled data 57) 0 1
            euler_deg :=
              quaternion_to_euler rq.2.1 rq.2.2.1 rq.2.2.2.1 rq.2.2.2.2 }
        imu := some
          { accelerometer :=
              (i16_scaled data 37, i16_scaled data 39, i16_scaled data 41)
            gyroscope :=
              (i16_scaled data 43, i16_scaled data 45, i16_scaled data 47) }
        raw_extended := (data.drop 37).take 26 }

/-- State of the crossbeam bounded channel created by
`SlamStream::start_hidapi` / `start_rusb` (slam.rs lines 28, 51):
the pending samples, and whether the receiving side is still alive. -/
structure ChannelState where
  queue : List SlamSample
  receiverAlive : Bool

/-- The capacity of `crossbeam_channel::bounded(256)` (slam.rs lines 28, 51). -/
def slamChannelCapacity : ℕ := 256

/-- Outcome of a non-blocking send attempt. -/
inductive TrySendOutcome where
  | sent
  | full
  | disconnected
deriving DecidableEq, Repr

/-- Modelled from the spec: the `try_send` operation of the external
`crossbeam_channel` bounded channel — a non-blocking enqueue that reports
`Disconnected` when the receiver is gone, `Full` when the queue holds
`slamChannelCapacity` samples, and otherwise appends the sample. -/
def trySend (st : ChannelState) (s : SlamSample) :
    ChannelState × TrySendOutcome :=
  if st.receiverAlive = false then (st, .disconnected)
  else if slamChannelCapacity ≤ st.queue.length then (st, .full)
  else ({ st with queue := st.queue ++ [s] }, .sent)

/-- `dispatch_sample` (slam.rs lines 312–331): parse the frame and, on
success, `try_send` it; a full channel drops the sample (trace-logged), a
disconnected channel sets the stop flag. Returns the new channel state and
stop flag. The function is total: it never blocks. -/
noncomputable def dispatch_sample (mode : RotationParseMode)
    (data : List Byte) (host_timestamp_s : ℝ) (st : ChannelState)
    (stop_flag : Bool) : ChannelState × Bool :=
  match parse_slam_packet mode data host_timestamp_s with
  | none => (st, stop_flag)
  | some sample =>
    match trySend st sample with
    | (st', .sent) => (st', stop_flag)
    | (st', .full) => (st', stop_flag)
    | (st', .disconnected) => (st', true)

/-- `SlamMode` (types.rs). -/
inductive SlamMode where
  | Edge
  | Mixed
deriving DecidableEq, Repr

/-- The `(edge, embedded_algo)` pair computed by `Device::start_slam`
(device.rs lines 176–180). -/
def start_slam_params : SlamMode → Bool × Bool
  | .Edge => (true, false)
  | .Mixed => (false, true)

-- ## Helper lemmas

theorem byteAt_take {i n : ℕ} (data : List Byte) (h : i < n) :
    byteAt (data.take n) i = byteAt data i := by
  unfold byteAt
  rw [List.getD_eq_getElem?_getD, List.getD_eq_getElem?_getD,
    List.getElem?_take, if_pos h]

/-- Shape of a successfully parsed packet in `auto` mode when the matrix
plausibility gate accepts. -/
theorem parse_auto_matrix_branch (data : List Byte) (h : ℝ)
    (hlen : REPORT_SIZE ≤ data.length)
    (h0 : byteAt data 0 = 0x01) (h1 : byteAt data 1 = 0xA2)
    (h2 : byteAt data 2 = 0x33)
    (hp : is_plausible_rotation_matrix (parse_rotation_matrix data) = true) :
    parse_slam_packet .auto data h = some
      { pose :=
          { translation :=
              ((i32_from_le (byteAt data 7) (byteAt data 8) (byteAt data 9)
                  (byteAt data 10) : ℚ) * SCALE,
               (i32_from_le (byteAt data 11) (byteAt data 12) (byteAt data 13)
                  (byteAt data 14) : ℚ) * SCALE,
               (i32_from_le (byteAt data 15) (byteAt data 16) (byteAt data 17)
                  (byteAt data 18) : ℚ) * SCALE)
            rotation := (parse_rotation_matrix data).toR
            quaternion :=
              ((rotation_to_quaternion (parse_rotation_matrix data).toR).x,
               (rotation_to_quaternion (parse_rotation_matrix data).toR).y,
               (rotation_to_quaternion (parse_rotation_matrix data).toR).z,
               (rotation_to_quaternion (parse_rotation_matrix data).toR).w)
            timestamp_us :=
              u32_from_le (byteAt data 3) (byteAt data 4) (byteAt data 5)
                (byteAt data 6)
            host_timestamp_s := h
            confidence := clampQ (i16_scaled data 57) 0 1
            euler_deg :=
              quaternion_to_euler
                (rotation_to_quaternion (parse_rotation_matrix data).toR).w
                (rotation_to_quaternion (parse_rotation_matrix data).toR).x
                (rotation_to_quaternion (parse_rotation_matrix data).toR).y
                (rotation_to_quaternion (parse_rotation_matrix data).toR).z }
        imu := some
          { accelerometer :=
              (i16_scaled data 37, i16_scaled data 39, i16_scaled data 41)
            gyroscope :=
              (i16_scaled data 43, i16_scaled data 45, i16_scaled data 47) }
        raw_extended := (data.drop 37).take 26 } := by
  unfold parse_slam_packet
  rw [if_neg (by omega), if_neg (by simp [h0, h1, h2])]
  simp only [hp, if_true]

/-- Shape of a successfully parsed packet in `auto` mode when the matrix
plausibility gate rejects: the quaternion layout at bytes [19..26] is used. -/
theorem parse_auto_quat_branch (data : List Byte) (h : ℝ)
    (hlen : REPORT_SIZE ≤ data.length)
    (h0 : byteAt data 0 = 0x01) (h1 : byteAt data 1 = 0xA2)
    (h2 : byteAt data 2 = 0x33)
    (hp : is_plausible_rotation_matrix (parse_rotation_matrix data) = false) :
    parse_slam_packet .auto data h = some
      { pose :=
          { translation :=
              ((i32_from_le (byteAt data 7) (byteAt data 8) (byteAt data 9)
                  (byteAt data 10) : ℚ) * SCALE,
               (i32_from_le (byteAt data 11) (byteAt data 12) (byteAt data 13)
                  (byteAt data 14) : ℚ) * SCALE,
               (i32_from_le (byteAt data 15) (byteAt data 16) (byteAt data 17)
                  (byteAt data 18) : ℚ) * SCALE)
            rotation :=
              quaternion_to_rotation ((i16_scaled data 19 : ℚ) : ℝ)
                ((i16_scaled data 21 : ℚ) : ℝ) ((i16_scaled data 23 : ℚ) : ℝ)
                ((i16_scaled data 25 : ℚ) : ℝ)
            quaternion :=
              (((i16_scaled data 21 : ℚ) : ℝ), ((i16_scaled data 23 : ℚ) : ℝ),
               ((i16_scaled data 25 : ℚ) : ℝ), ((i16_scaled data 19 : ℚ) : ℝ))
            timestamp_us :=
              u32_from_le (byteAt data 3) (byteAt data 4) (byteAt data 5)
                (byteAt data 6)
            host_timestamp_s := h
            confidence := clampQ (i16_scaled data 57) 0 1
            euler_deg :=
              quaternion_to_euler ((i16_scaled data 19 : ℚ) : ℝ)
                ((i16_scaled data 21 : ℚ) : ℝ) ((i16_scaled data 23 : ℚ) : ℝ)
                ((i16_scaled data 25 : ℚ) : ℝ) }
        imu := some
          { accelerometer :=
              (i16_scaled data 37, i16_scaled data 39, i16_scaled data 41)
            gyroscope :=
              (i16_scaled data 43, i16_scaled data 45, i16_scaled data 47) }
        raw_extended := (data.drop 37).take 26 } := by
  unfold parse_slam_packet
  rw [if_neg (by omega), if_neg (by simp [h0, h1, h2])]
  simp only [hp, Bool.false_eq_true, if_false]

/-- Any long-enough buffer with the SLAM header parses successfully, in every
rotation-parse mode. -/
theorem parse_isSome_of_valid (mode : RotationParseMode) (data : List Byte)
    (h : ℝ) (hlen : REPORT_SIZE ≤ data.length)
    (h0 : byteAt data 0 = 0x01) (h1 : byteAt data 1 = 0xA2)
    (h2 : byteAt data 2 = 0x33) :
    (parse_slam_packet mode data h).isSome = true := by
  unfold parse_slam_packet
  rw [if_neg (by omega), if_neg (by simp [h0, h1, h2])]
  rfl

theorem i16_scaled_take {i : ℕ} (data : List Byte) (h : i + 1 < 63) :
    i16_scaled (data.take 63) i = i16_scaled data i := by
  unfold i16_scaled
  rw [byteAt_take data (by omega), byteAt_take data h]

/-- The parser reads only the first `REPORT_SIZE` bytes of its input. -/
theorem parse_slam_packet_take (mode : RotationParseMode) (data : List Byte)
    (h : ℝ) :
    parse_slam_packet mode (data.take REPORT_SIZE) h =
      parse_slam_packet mode data h := by
  rcases Nat.lt_or_ge data.length REPORT_SIZE with hl | hl
  · rw [List.take_of_length_le (le_of_lt hl)]
  · unfold REPORT_SIZE at hl ⊢
    have hlen : (data.take 63).length = 63 := by
      rw [List.length_take]; omega
    have hraw : ((data.take 63).drop 37).take 26 =
        (data.drop 37).take 26 := by
      rw [List.drop_take, List.take_take]
      norm_num
    unfold parse_slam_packet parse_rotation_matrix
    unfold REPORT_SIZE
    rw [hlen, hraw]
    rw [if_neg (show ¬ (63:ℕ) < 63 by omega),
      if_neg (show ¬ data.length < 63 by omega)]
    rw [byteAt_take data (by norm_num : (0:ℕ) < 63),
      byteAt_take data (by norm_num : (1:ℕ) < 63),
      byteAt_take data (by norm_num : (2:ℕ) < 63),
      byteAt_take data (by norm_num : (3:ℕ) < 63),
      byteAt_take data (by norm_num : (4:ℕ) < 63),
      byteAt_take data (by norm_num : (5:ℕ) < 63),
      byteAt_take data (by norm_num : (6:ℕ) < 63),
      byteAt_take data (by norm_num : (7:ℕ) < 63),
      byteAt_take data (by norm_num : (8:ℕ) < 63),
      byteAt_take data (by norm_num : (9:ℕ) < 63),
      byteAt_take data (by norm_num : (10:ℕ) < 63),
      byteAt_take data (by norm_num : (11:ℕ) < 63),
      byteAt_take data (by norm_num : (12:ℕ) < 63),
      byteAt_take data (by norm_num : (13:ℕ) < 63),
      byteAt_take data (by norm_num : (14:ℕ) < 63),
      byteAt_take data (by norm_num : (15:ℕ) < 63),
      byteAt_take data (by norm_num : (16:ℕ) < 63),
      byteAt_take data (by norm_num : (17:ℕ) < 63),
      byteAt_take data (by norm_num : (18:ℕ) < 63),
      i16_scaled_take data (by norm_num : 19 + 1 < 63),
      i16_scaled_take data (by norm_num : 21 + 1 < 63),
      i16_scaled_take data (by norm_num : 23 + 1 < 63),
      i16_scaled_take data (by norm_num : 25 + 1 < 63),
      i16_scaled_take data (by norm_num : 27 + 1 < 63),
      i16_scaled_take data (by norm_num : 29 + 1 < 63),
      i16_scaled_take data (by norm_num : 31 + 1 < 63),
      i16_scaled_take data (by norm_num : 33 + 1 < 63),
      i16_scaled_take data (by norm_num : 35 + 1 < 63),
      i16_scaled_take data (by norm_num : 37 + 1 < 63),
      i16_scaled_take data (by norm_num : 39 + 1 < 63),
      i16_scaled_take data (by norm_num : 41 + 1 < 63),
      i16_scaled_take data (by norm_num : 43 + 1 < 63),
      i16_scaled_take data (by norm_num : 45 + 1 < 63),
      i16_scaled_take data (by norm_num : 47 + 1 < 63),
      i16_scaled_take data (by norm_num : 57 + 1 < 63)]

-- ## Claim C5

/-- C5: for every response buffer and expected opcode, `validate_response`
fails with `InvalidResponse b` with `b` equal to byte 0 (0 for an empty
buffer) iff the buffer is empty or byte 0 is not 0x01; it fails with
`CommandMismatch` iff byte 0 is 0x01 but the echo bytes `[1..1+len(opcode)]`
do not equal the expected opcode (in particular whenever the buffer is
shorter than `1 + len(opcode)`); in every other case it returns exactly
`1 + len(opcode)`. -/
theorem C5_validate_response_characterization (r e : List Byte) :
    ((∃ b, validate_response r e = .error (.InvalidResponse b)) ↔
      (r = [] ∨ byteAt r 0 ≠ 0x01)) ∧
    (∀ b, validate_response r e = .error (.InvalidResponse b) →
      b = byteAt r 0) ∧
    (validate_response r e = .error .CommandMismatch ↔
      (r ≠ [] ∧ byteAt r 0 = 0x01 ∧ (r.drop 1).take e.length ≠ e)) ∧
    (r ≠ [] → byteAt r 0 = 0x01 → (r.drop 1).take e.length = e →
      validate_response r e = .ok (1 + e.length)) := by
  by_cases hA : r = [] ∨ byteAt r 0 ≠ 0x01
  · have hv : validate_response r e = .error (.InvalidResponse (byteAt r 0)) := by
      unfold validate_response
      rw [if_pos hA]
    refine ⟨⟨fun _ => hA, fun _ => ⟨_, hv⟩⟩, ?_, ?_, ?_⟩
    · intro b hb
      rw [hv] at hb
      simpa using hb.symm
    · rw [hv]
      constructor
      · intro hh
        simp at hh
      · rintro ⟨hne, h0, -⟩
        rcases hA with h | h
        · exact absurd h hne
        · exact absurd h0 h
    · intro hne h0 _
      rcases hA with h | h
      · exact absurd h hne
      · exact absurd h0 h
  · push_neg at hA
    obtain ⟨hne, h0⟩ := hA
    have hone : 1 ≤ r.length := List.length_pos.mpr hne
    by_cases hB : (r.drop 1).take e.length = e
    · have hlen : ¬ r.length < 1 + e.length := by
        intro hlt
        have hl : ((r.drop 1).take e.length).length < e.length := by
          rw [List.length_take, List.length_drop]
          omega
        rw [hB] at hl
        omega
      have hv : validate_response r e = .ok (1 + e.length) := by
        unfold validate_response
        rw [if_neg (by simp [hne, h0]), if_neg hlen, if_neg (not_not_intro hB)]
      refine ⟨⟨?_, ?_⟩, ?_, ?_, ?_⟩
      · rintro ⟨b, hb⟩
        rw [hv] at hb
        simp at hb
      · rintro (h | h)
        · exact absurd h hne
        · exact absurd h0 h
      · intro b hb
        rw [hv] at hb
        simp at hb
      · rw [hv]
        constructor
        · intro hh
          simp at hh
        · rintro ⟨-, -, hc⟩
          exact absurd hB hc
      · intro _ _ _
        exact hv
    · have hv : validate_response r e = .error .CommandMismatch := by
        unfold validate_response
        rw [if_neg (by simp [hne, h0])]
        by_cases hlen : r.length < 1 + e.length
        · rw [if_pos hlen]
        · rw [if_neg hlen, if_pos hB]
      refine ⟨⟨?_, ?_⟩, ?_, ?_, ?_⟩
      · rintro ⟨b, hb⟩
        rw [hv] at hb
        simp at hb
      · rintro (h | h)
        · exact absurd h hne
        · exact absurd h0 h
      · intro b hb
        rw [hv] at hb
        simp at hb
      · rw [hv]
        exact ⟨fun _ => ⟨hne, h0, hB⟩, fun _ => rfl⟩
      · intro _ _ hc
        exact absurd hc hB

/-- Witness for C5: the empty response yields `InvalidResponse 0`, and the
test vector of protocol.rs (`0x01` then the UUID opcode echo) yields
payload offset 5. -/
theorem C5_witness :
    validate_response [] [0xFD, 0x66, 0x00, 0x02] =
        .error (.InvalidResponse 0) ∧
    validate_response [0x01, 0xFD, 0x66, 0x00, 0x02, 0x58]
        [0xFD, 0x66, 0x00, 0x02] = .ok 5 := by
  constructor
  · rcases (C5_validate_response_characterization []
        [0xFD, 0x66, 0x00, 0x02]).1.mpr (Or.inl rfl) with ⟨b, hb⟩
    have hb0 : b = byteAt [] 0 :=
      (C5_validate_response_characterization []
        [0xFD, 0x66, 0x00, 0x02]).2.1 b hb
    rw [hb0] at hb
    exact hb
  · exact (C5_validate_response_characterization
      [0x01, 0xFD, 0x66, 0x00, 0x02, 0x58] [0xFD, 0x66, 0x00, 0x02]).2.2.2
      (by decide) (by decide) (by decide)

-- ## Claim C6

/-- C6: every input buffer shorter than 63 bytes yields no sample, in every
rotation-parse mode. (In this embedding the parser is a total function whose
byte accesses are guarded by this length check, so the Rust parser's
panic-freedom is reflected by totality together with
`parse_slam_packet_take`.) -/
theorem C6_parse_short_returns_none (mode : RotationParseMode)
    (data : List Byte) (h : ℝ) (hlen : data.length < REPORT_SIZE) :
    parse_slam_packet mode data h = none := by
  unfold parse_slam_packet
  rw [if_pos hlen]

/-- Witness for C6: the empty buffer and a 62-byte buffer both return
`none`. -/
theorem C6_witness :
    ([] : List Byte).length < REPORT_SIZE ∧
    (List.replicate 62 (0 : Byte)).length < REPORT_SIZE ∧
    parse_slam_packet .auto [] 0 = none ∧
    parse_slam_packet .auto (List.replicate 62 (0 : Byte)) 0 = none :=
  ⟨by decide, by simp [REPORT_SIZE],
   C6_parse_short_returns_none .auto [] 0 (by decide),
   C6_parse_short_returns_none .auto (List.replicate 62 (0 : Byte)) 0
     (by simp [REPORT_SIZE])⟩

-- ## Claim C9

/-- C9: `start_slam` maps `Edge` to `(edge=1, embeddedAlgo=0)` and `Mixed`
to `(edge=0, embeddedAlgo=1)`, and for every parameter triple the configure
frame is exactly the 63-byte buffer
`[0x02, 0x19, 0x95, edge, uvcMode, embeddedAlgo]` followed by zero padding. -/
theorem C9_configure_command_frame :
    start_slam_params .Edge = (true, false) ∧
    start_slam_params .Mixed = (false, true) ∧
    ∀ (edge : Bool) (uvc_mode : Byte) (embedded_algo : Bool),
      build_configure_cmd_with_uvc edge uvc_mode embedded_algo =
        [0x02, 0x19, 0x95, if edge then 1 else 0, uvc_mode,
          if embedded_algo then 1 else 0] ++ List.replicate 57 0 ∧
      (build_configure_cmd_with_uvc edge uvc_mode embedded_algo).length = 63 := by
  refine ⟨rfl, rfl, fun edge uvc_mode embedded_algo => ⟨?_, ?_⟩⟩
  · show build_command _ = _
    unfold build_command CMD_CONFIGURE REPORT_SIZE
    norm_num [List.take]
  · show (build_command _).length = 63
    unfold build_command CMD_CONFIGURE REPORT_SIZE
    norm_num [List.take]

-- ## Claim C10

/-- C10: the parser accepts any buffer of length at least 63 carrying the
valid `0x01 0xA2 0x33` header, and only the first 63 bytes influence the
decoded sample — the fixed 63-byte packet size is a lower bound at the
parsing interface, not an exact-length requirement. -/
theorem C10_parse_length_lower_bound :
    (∀ (mode : RotationParseMode) (data : List Byte) (h : ℝ),
      parse_slam_packet mode (data.take REPORT_SIZE) h =
        parse_slam_packet mode data h) ∧
    (∀ (mode : RotationParseMode) (data : List Byte) (h : ℝ),
      REPORT_SIZE ≤ data.length → byteAt data 0 = 0x01 →
      byteAt data 1 = 0xA2 → byteAt data 2 = 0x33 →
      (parse_slam_packet mode data h).isSome = true) :=
  ⟨parse_slam_packet_take, parse_isSome_of_valid⟩

/-- The canonical pose packet of scenario E1 (also the test vector of
protocol.rs `test_parse_slam_packet`). -/
def E1_packet : List Byte :=
  [0x01, 0xA2, 0x33, 0x6B, 0xD1, 0x25, 0x5F, 0x58, 0x01, 0x00, 0x00, 0x1E,
   0x00, 0x00, 0x00, 0xC3, 0x01, 0x00, 0x00, 0x62, 0xC0, 0x3A, 0x03, 0x2D,
   0x06, 0x5A, 0xFD, 0x56, 0xC0, 0xF3, 0x05, 0x72, 0x06, 0xA9, 0x05, 0x6C,
   0x3F, 0xA0, 0x56, 0x7D, 0x00, 0xF3, 0xFF, 0xF2, 0xFF, 0x00, 0x00, 0x00,
   0x00, 0x00, 0x00, 0x04, 0x00, 0x09, 0x00, 0x07, 0x00, 0x2B, 0x41, 0x00,
   0x00, 0x00, 0x00]

/-- Witness for C10: a 64-byte read (the E1 packet plus one trailing byte,
as delivered by the reader's 64-byte interrupt buffer) is accepted. -/
theorem C10_witness :
    REPORT_SIZE ≤ (E1_packet ++ [0x00]).length ∧
    (parse_slam_packet .auto (E1_packet ++ [0x00]) 0).isSome = true :=
  ⟨by decide,
   C10_parse_length_lower_bound.2 .auto (E1_packet ++ [0x00]) 0 (by decide)
     (by decide) (by decide) (by decide)⟩

-- ## Claim C2

/-- A 63-byte buffer with a valid SLAM header and an all-zero payload. -/
def zero_payload_packet : List Byte := [0x01, 0xA2, 0x33] ++ List.replicate 60 0

theorem zero_payload_byteAt {i : ℕ} (h : 3 ≤ i) : byteAt zero_payload_packet i = 0 := by
  unfold byteAt zero_payload_packet
  rw [List.getD_append_right _ _ _ _ (by simpa using h),
    List.getD_eq_getElem?_getD, List.getElem?_getD_replicate_default_eq]

theorem zero_payload_i16_scaled {i : ℕ} (h : 3 ≤ i) :
    i16_scaled zero_payload_packet i = 0 := by
  unfold i16_scaled
  rw [zero_payload_byteAt h, zero_payload_byteAt (by omega : 3 ≤ i + 1)]
  norm_num [i16_from_le]

theorem zero_payload_implausible :
    is_plausible_rotation_matrix (parse_rotation_matrix zero_payload_packet) = false := by
  have hm : parse_rotation_matrix zero_payload_packet = ⟨0, 0, 0, 0, 0, 0, 0, 0, 0⟩ := by
    unfold parse_rotation_matrix
    rw [zero_payload_i16_scaled (by omega), zero_payload_i16_scaled (by omega),
      zero_payload_i16_scaled (by omega), zero_payload_i16_scaled (by omega),
      zero_payload_i16_scaled (by omega), zero_payload_i16_scaled (by omega),
      zero_payload_i16_scaled (by omega), zero_payload_i16_scaled (by omega),
      zero_payload_i16_scaled (by omega)]
  rw [hm]
  norm_num [is_plausible_rotation_matrix]

/-- C2 counterexample: the all-zero-payload packet has the valid header and
length 63, yet `parse_slam_packet` in auto mode decodes it through the
quaternion fallback to the zero quaternion, whose Euclidean magnitude is 0 —
not in [0.95, 1.05]. This refutes the claim that every 63-byte buffer with a
valid header yields a quaternion of magnitude in [0.95, 1.05]. -/
theorem C2_counterexample :
    zero_payload_packet.length = 63 ∧
    byteAt zero_payload_packet 0 = 0x01 ∧ byteAt zero_payload_packet 1 = 0xA2 ∧
    byteAt zero_payload_packet 2 = 0x33 ∧
    ∃ s, parse_slam_packet .auto zero_payload_packet 0 = some s ∧
      s.pose.quaternion = (0, 0, 0, 0) ∧
      Real.sqrt (s.pose.quaternion.1 ^ 2 + s.pose.quaternion.2.1 ^ 2 +
        s.pose.quaternion.2.2.1 ^ 2 + s.pose.quaternion.2.2.2 ^ 2) < 0.95 := by
  refine ⟨by decide, by decide, by decide, by decide, _,
    parse_auto_quat_branch zero_payload_packet 0 (by decide) (by decide) (by decide)
      (by decide) zero_payload_implausible, ?_, ?_⟩
  · show ((((i16_scaled zero_payload_packet 21 : ℚ) : ℝ)), _, _, _) = (0, 0, 0, 0)
    rw [zero_payload_i16_scaled (by omega : (3:ℕ) ≤ 21),
      zero_payload_i16_scaled (by omega : (3:ℕ) ≤ 23),
      zero_payload_i16_scaled (by omega : (3:ℕ) ≤ 25),
      zero_payload_i16_scaled (by omega : (3:ℕ) ≤ 19)]
    norm_num
  · show Real.sqrt ((((i16_scaled zero_payload_packet 21 : ℚ) : ℝ)) ^ 2 + _ + _ + _) < _
    rw [zero_payload_i16_scaled (by omega : (3:ℕ) ≤ 21),
      zero_payload_i16_scaled (by omega : (3:ℕ) ≤ 23),
      zero_payload_i16_scaled (by omega : (3:ℕ) ≤ 25),
      zero_payload_i16_scaled (by omega : (3:ℕ) ≤ 19)]
    norm_num [Real.sqrt_zero]

/-- C2 amended: for every 63-byte buffer whose bytes 0..2 are 0x01 0xA2 0x33,
`parse_slam_packet` in auto mode returns `Some`; no bound on the quaternion
magnitude holds in general (the all-zero payload gives magnitude 0). -/
theorem C2_amended_parse_returns_some (data : List Byte) (h : ℝ)
    (hlen : data.length = 63) (h0 : byteAt data 0 = 0x01)
    (h1 : byteAt data 1 = 0xA2) (h2 : byteAt data 2 = 0x33) :
    (parse_slam_packet .auto data h).isSome = true :=
  parse_isSome_of_valid .auto data h (by rw [hlen]; norm_num [REPORT_SIZE])
    h0 h1 h2

/-- Witness for C2 (amended), at the all-zero-payload packet. -/
theorem C2_witness :
    zero_payload_packet.length = 63 ∧
    (parse_slam_packet .auto zero_payload_packet 0).isSome = true :=
  ⟨by decide, C2_amended_parse_returns_some zero_payload_packet 0 (by decide) (by decide)
    (by decide) (by decide)⟩

-- ## Claim C4

/-- Like `zero_payload_packet` but with byte 27 — the first of the 10
reserved bytes of the quaternion-encoded pose variant — set to 5. -/
def C4_packet : List Byte :=
  [0x01, 0xA2, 0x33] ++ (List.replicate 24 0 ++ ([5] ++ List.replicate 35 0))

theorem i16_scaled_eq_zero {data : List Byte} {i : ℕ}
    (h : i16_from_le (byteAt data i) (byteAt data (i + 1)) = 0) :
    i16_scaled data i = 0 := by
  unfold i16_scaled
  rw [h]
  norm_num

theorem C4_packet_implausible :
    is_plausible_rotation_matrix (parse_rotation_matrix C4_packet) = false := by
  have hm : parse_rotation_matrix C4_packet =
      ⟨0, 0, 0, 0, 5 / 16384, 0, 0, 0, 0⟩ := by
    unfold parse_rotation_matrix
    rw [show i16_scaled C4_packet 27 = 5 / 16384 by
        unfold i16_scaled
        rw [show i16_from_le (byteAt C4_packet 27) (byteAt C4_packet (27 + 1))
            = 5 from by decide]
        norm_num [SCALE],
      i16_scaled_eq_zero (by decide), i16_scaled_eq_zero (by decide),
      i16_scaled_eq_zero (by decide), i16_scaled_eq_zero (by decide),
      i16_scaled_eq_zero (by decide), i16_scaled_eq_zero (by decide),
      i16_scaled_eq_zero (by decide), i16_scaled_eq_zero (by decide)]
  rw [hm]
  norm_num [is_plausible_rotation_matrix]

/-- The common value of parsing either packet: everything is zero; the
rotation falls back to the quaternion layout. -/
noncomputable def C4_common_sample : SlamSample :=
  { pose :=
      { translation := (0, 0, 0)
        rotation := quaternion_to_rotation 0 0 0 0
        quaternion := (0, 0, 0, 0)
        timestamp_us := 0
        host_timestamp_s := 0
        confidence := clampQ 0 0 1
        euler_deg := quaternion_to_euler 0 0 0 0 }
    imu := some { accelerometer := (0, 0, 0), gyroscope := (0, 0, 0) }
    raw_extended := List.replicate 26 0 }

theorem zero_payload_parse :
    parse_slam_packet .auto zero_payload_packet 0 = some C4_common_sample := by
  rw [parse_auto_quat_branch zero_payload_packet 0 (by decide) (by decide)
    (by decide) (by decide) zero_payload_implausible]
  unfold C4_common_sample
  rw [zero_payload_i16_scaled (by omega : (3:ℕ) ≤ 19),
    zero_payload_i16_scaled (by omega : (3:ℕ) ≤ 21),
    zero_payload_i16_scaled (by omega : (3:ℕ) ≤ 23),
    zero_payload_i16_scaled (by omega : (3:ℕ) ≤ 25),
    zero_payload_i16_scaled (by omega : (3:ℕ) ≤ 37),
    zero_payload_i16_scaled (by omega : (3:ℕ) ≤ 39),
    zero_payload_i16_scaled (by omega : (3:ℕ) ≤ 41),
    zero_payload_i16_scaled (by omega : (3:ℕ) ≤ 43),
    zero_payload_i16_scaled (by omega : (3:ℕ) ≤ 45),
    zero_payload_i16_scaled (by omega : (3:ℕ) ≤ 47),
    zero_payload_i16_scaled (by omega : (3:ℕ) ≤ 57),
    show i32_from_le (byteAt zero_payload_packet 7) (byteAt zero_payload_packet 8)
      (byteAt zero_payload_packet 9) (byteAt zero_payload_packet 10) = 0
      from by decide,
    show i32_from_le (byteAt zero_payload_packet 11) (byteAt zero_payload_packet 12)
      (byteAt zero_payload_packet 13) (byteAt zero_payload_packet 14) = 0
      from by decide,
    show i32_from_le (byteAt zero_payload_packet 15) (byteAt zero_payload_packet 16)
      (byteAt zero_payload_packet 17) (byteAt zero_payload_packet 18) = 0
      from by decide,
    show u32_from_le (byteAt zero_payload_packet 3) (byteAt zero_payload_packet 4)
      (byteAt zero_payload_packet 5) (byteAt zero_payload_packet 6) = 0
      from by decide,
    show (zero_payload_packet.drop 37).take 26 = List.replicate 26 0
      from by decide]
  norm_num

theorem C4_packet_parse :
    parse_slam_packet .auto C4_packet 0 = some C4_common_sample := by
  rw [parse_auto_quat_branch C4_packet 0 (by decide) (by decide)
    (by decide) (by decide) C4_packet_implausible]
  unfold C4_common_sample
  rw [i16_scaled_eq_zero (by decide : i16_from_le (byteAt C4_packet 19)
      (byteAt C4_packet (19 + 1)) = 0),
    i16_scaled_eq_zero (by decide : i16_from_le (byteAt C4_packet 21)
      (byteAt C4_packet (21 + 1)) = 0),
    i16_scaled_eq_zero (by decide : i16_from_le (byteAt C4_packet 23)
      (byteAt C4_packet (23 + 1)) = 0),
    i16_scaled_eq_zero (by decide : i16_from_le (byteAt C4_packet 25)
      (byteAt C4_packet (25 + 1)) = 0),
    i16_scaled_eq_zero (by decide : i16_from_le (byteAt C4_packet 37)
      (byteAt C4_packet (37 + 1)) = 0),
    i16_scaled_eq_zero (by decide : i16_from_le (byteAt C4_packet 39)
      (byteAt C4_packet (39 + 1)) = 0),
    i16_scaled_eq_zero (by decide : i16_from_le (byteAt C4_packet 41)
      (byteAt C4_packet (41 + 1)) = 0),
    i16_scaled_eq_zero (by decide : i16_from_le (byteAt C4_packet 43)
      (byteAt C4_packet (43 + 1)) = 0),
    i16_scaled_eq_zero (by decide : i16_from_le (byteAt C4_packet 45)
      (byteAt C4_packet (45 + 1)) = 0),
    i16_scaled_eq_zero (by decide : i16_from_le (byteAt C4_packet 47)
      (byteAt C4_packet (47 + 1)) = 0),
    i16_scaled_eq_zero (by decide : i16_from_le (byteAt C4_packet 57)
      (byteAt C4_packet (57 + 1)) = 0),
    show i32_from_le (byteAt C4_packet 7) (byteAt C4_packet 8)
      (byteAt C4_packet 9) (byteAt C4_packet 10) = 0 from by decide,
    show i32_from_le (byteAt C4_packet 11) (byteAt C4_packet 12)
      (byteAt C4_packet 13) (byteAt C4_packet 14) = 0 from by decide,
    show i32_from_le (byteAt C4_packet 15) (byteAt C4_packet 16)
      (byteAt C4_packet 17) (byteAt C4_packet 18) = 0 from by decide,
    show u32_from_le (byteAt C4_packet 3) (byteAt C4_packet 4)
      (byteAt C4_packet 5) (byteAt C4_packet 6) = 0 from by decide,
    show (C4_packet.drop 37).take 26 = List.replicate 26 0 from by decide]
  norm_num

/-- C4 counterexample: two 63-byte quaternion-variant pose packets that
differ exactly in reserved byte 27 parse to the *same* sample, so the
reserved bytes at [27..36] are not preserved in `raw_extended` (nor anywhere
else in the returned sample). -/
theorem C4_counterexample :
    byteAt zero_payload_packet 27 ≠ byteAt C4_packet 27 ∧
    is_plausible_rotation_matrix (parse_rotation_matrix zero_payload_packet)
      = false ∧
    is_plausible_rotation_matrix (parse_rotation_matrix C4_packet) = false ∧
    parse_slam_packet .auto zero_payload_packet 0 =
      parse_slam_packet .auto C4_packet 0 :=
  ⟨by decide, zero_payload_implausible, C4_packet_implausible,
    by rw [zero_payload_parse, C4_packet_parse]⟩

/-- C4 amended: for every packet the parser accepts (in any mode), the
sample's `raw_extended` region preserves verbatim the 26 bytes at offsets
[37..63) of the packet; the reserved bytes at [27..36] of the
quaternion-encoded variant are discarded. -/
theorem C4_amended_raw_extended (mode : RotationParseMode) (data : List Byte)
    (h : ℝ) (s : SlamSample) (hs : parse_slam_packet mode data h = some s) :
    s.raw_extended = (data.drop 37).take 26 := by
  unfold parse_slam_packet at hs
  split_ifs at hs
  obtain h' := (Option.some.injEq _ _).mp hs
  rw [← h']

/-- Witness for C4 (amended), at the all-zero-payload packet. -/
theorem C4_witness :
    parse_slam_packet .auto zero_payload_packet 0 = some C4_common_sample ∧
    C4_common_sample.raw_extended =
      (zero_payload_packet.drop 37).take 26 :=
  ⟨zero_payload_parse,
   C4_amended_raw_extended .auto zero_payload_packet 0 C4_common_sample
     zero_payload_parse⟩

-- ## Claim C3

/-- A 63-byte pose packet whose rotation payload is the scalar matrix
`(9830/16384)·I ≈ 0.6·I`: bytes `66 26` (little-endian 9830) on the matrix
diagonal (offsets 19, 27, 35), zero elsewhere. Every row has Euclidean norm
`9830/16384 ∈ [0.5, 1.5]`, but squared norm `≈ 0.36 ∉ [0.5, 1.5]`. -/
def C3_packet : List Byte :=
  [0x01, 0xA2, 0x33] ++ (List.replicate 16 0 ++ ([0x66, 0x26] ++
    (List.replicate 6 0 ++ ([0x66, 0x26] ++ (List.replicate 6 0 ++
      ([0x66, 0x26] ++ List.replicate 26 0))))))

theorem C3_packet_matrix : parse_rotation_matrix C3_packet =
    ⟨9830 / 16384, 0, 0, 0, 9830 / 16384, 0, 0, 0, 9830 / 16384⟩ := by
  have hd : ∀ i : ℕ,
      i16_from_le (byteAt C3_packet i) (byteAt C3_packet (i + 1)) = 9830 →
      i16_scaled C3_packet i = 9830 / 16384 := by
    intro i hi
    unfold i16_scaled
    rw [hi]
    norm_num [SCALE]
  unfold parse_rotation_matrix
  rw [hd 19 (by decide), hd 27 (by decide), hd 35 (by decide),
    i16_scaled_eq_zero (by decide), i16_scaled_eq_zero (by decide),
    i16_scaled_eq_zero (by decide), i16_scaled_eq_zero (by decide),
    i16_scaled_eq_zero (by decide), i16_scaled_eq_zero (by decide)]

theorem C3_packet_implausible :
    is_plausible_rotation_matrix (parse_rotation_matrix C3_packet) = false := by
  rw [C3_packet_matrix]
  norm_num [is_plausible_rotation_matrix]

/-- C3 counterexample: for the `0.6·I` packet, every row of the decoded
matrix has Euclidean norm in [0.5, 1.5] and every pairwise row dot-product
has absolute value < 0.7 — so the claim predicts the matrix interpretation
is kept — yet `is_plausible_rotation_matrix` (which checks *squared* row
norms against [0.5, 1.5]) rejects it and the parser falls back to the
quaternion layout: the returned rotation is not the decoded matrix. -/
theorem C3_counterexample :
    (1/2 ≤ Real.sqrt (((parse_rotation_matrix C3_packet).m00 : ℝ) ^ 2 +
        ((parse_rotation_matrix C3_packet).m01 : ℝ) ^ 2 +
        ((parse_rotation_matrix C3_packet).m02 : ℝ) ^ 2) ∧
      Real.sqrt (((parse_rotation_matrix C3_packet).m00 : ℝ) ^ 2 +
        ((parse_rotation_matrix C3_packet).m01 : ℝ) ^ 2 +
        ((parse_rotation_matrix C3_packet).m02 : ℝ) ^ 2) ≤ 3/2) ∧
    (1/2 ≤ Real.sqrt (((parse_rotation_matrix C3_packet).m10 : ℝ) ^ 2 +
        ((parse_rotation_matrix C3_packet).m11 : ℝ) ^ 2 +
        ((parse_rotation_matrix C3_packet).m12 : ℝ) ^ 2) ∧
      Real.sqrt (((parse_rotation_matrix C3_packet).m10 : ℝ) ^ 2 +
        ((parse_rotation_matrix C3_packet).m11 : ℝ) ^ 2 +
        ((parse_rotation_matrix C3_packet).m12 : ℝ) ^ 2) ≤ 3/2) ∧
    (1/2 ≤ Real.sqrt (((parse_rotation_matrix C3_packet).m20 : ℝ) ^ 2 +
        ((parse_rotation_matrix C3_packet).m21 : ℝ) ^ 2 +
        ((parse_rotation_matrix C3_packet).m22 : ℝ) ^ 2) ∧
      Real.sqrt (((parse_rotation_matrix C3_packet).m20 : ℝ) ^ 2 +
        ((parse_rotation_matrix C3_packet).m21 : ℝ) ^ 2 +
        ((parse_rotation_matrix C3_packet).m22 : ℝ) ^ 2) ≤ 3/2) ∧
    |(parse_rotation_matrix C3_packet).m00 * (parse_rotation_matrix C3_packet).m10 +
      (parse_rotation_matrix C3_packet).m01 * (parse_rotation_matrix C3_packet).m11 +
      (parse_rotation_matrix C3_packet).m02 * (parse_rotation_matrix C3_packet).m12| < 7/10 ∧
    |(parse_rotation_matrix C3_packet).m00 * (parse_rotation_matrix C3_packet).m20 +
      (parse_rotation_matrix C3_packet).m01 * (parse_rotation_matrix C3_packet).m21 +
      (parse_rotation_matrix C3_packet).m02 * (parse_rotation_matrix C3_packet).m22| < 7/10 ∧
    |(parse_rotation_matrix C3_packet).m10 * (parse_rotation_matrix C3_packet).m20 +
      (parse_rotation_matrix C3_packet).m11 * (parse_rotation_matrix C3_packet).m21 +
      (parse_rotation_matrix C3_packet).m12 * (parse_rotation_matrix C3_packet).m22| < 7/10 ∧
    is_plausible_rotation_matrix (parse_rotation_matrix C3_packet) = false ∧
    ∃ s, parse_slam_packet .auto C3_packet 0 = some s ∧
      s.pose.rotation ≠ (parse_rotation_matrix C3_packet).toR := by
  have hsq : Real.sqrt (((9830 / 16384 : ℚ) : ℝ) ^ 2 + ((0 : ℚ) : ℝ) ^ 2 +
      ((0 : ℚ) : ℝ) ^ 2) = 4915 / 8192 := by
    rw [show ((9830 / 16384 : ℚ) : ℝ) ^ 2 + ((0 : ℚ) : ℝ) ^ 2 +
        ((0 : ℚ) : ℝ) ^ 2 = (4915 / 8192 : ℝ) ^ 2 by push_cast; norm_num]
    exact Real.sqrt_sq (by norm_num)
  have hsq2 : Real.sqrt (((0 : ℚ) : ℝ) ^ 2 + ((9830 / 16384 : ℚ) : ℝ) ^ 2 +
      ((0 : ℚ) : ℝ) ^ 2) = 4915 / 8192 := by
    rw [show ((0 : ℚ) : ℝ) ^ 2 + ((9830 / 16384 : ℚ) : ℝ) ^ 2 +
        ((0 : ℚ) : ℝ) ^ 2 = (4915 / 8192 : ℝ) ^ 2 by push_cast; norm_num]
    exact Real.sqrt_sq (by norm_num)
  have hsq3 : Real.sqrt (((0 : ℚ) : ℝ) ^ 2 + ((0 : ℚ) : ℝ) ^ 2 +
      ((9830 / 16384 : ℚ) : ℝ) ^ 2) = 4915 / 8192 := by
    rw [show ((0 : ℚ) : ℝ) ^ 2 + ((0 : ℚ) : ℝ) ^ 2 +
        ((9830 / 16384 : ℚ) : ℝ) ^ 2 = (4915 / 8192 : ℝ) ^ 2 by push_cast; norm_num]
    exact Real.sqrt_sq (by norm_num)
  rw [C3_packet_matrix]
  refine ⟨⟨?_, ?_⟩, ⟨?_, ?_⟩, ⟨?_, ?_⟩, ?_, ?_, ?_, ?_, ?_⟩
  · rw [show (QMat3.mk (9830/16384) 0 0 0 (9830/16384) 0 0 0 (9830/16384)).m00
        = (9830/16384 : ℚ) from rfl]
    rw [hsq]; norm_num
  · rw [hsq]; norm_num
  · rw [hsq2]; norm_num
  · rw [hsq2]; norm_num
  · rw [hsq3]; norm_num
  · rw [hsq3]; norm_num
  · norm_num
  · norm_num
  · norm_num
  · rw [← C3_packet_matrix]; exact C3_packet_implausible
  · refine ⟨_, parse_auto_quat_branch C3_packet 0 (by decide) (by decide)
      (by decide) (by decide) C3_packet_implausible, ?_⟩
    intro heq
    have h00 := congrArg RMat3.m00 heq
    rw [show (QMat3.mk (9830/16384) 0 0 0 (9830/16384) 0 0 0
        (9830/16384)).toR.m00 = ((9830/16384 : ℚ) : ℝ) from rfl] at h00
    rw [show (quaternion_to_rotation ((i16_scaled C3_packet 19 : ℚ) : ℝ)
        ((i16_scaled C3_packet 21 : ℚ) : ℝ) ((i16_scaled C3_packet 23 : ℚ) : ℝ)
        ((i16_scaled C3_packet 25 : ℚ) : ℝ)).m00 =
        1 - 2 * (((i16_scaled C3_packet 23 : ℚ) : ℝ) *
          ((i16_scaled C3_packet 23 : ℚ) : ℝ) +
          ((i16_scaled C3_packet 25 : ℚ) : ℝ) *
          ((i16_scaled C3_packet 25 : ℚ) : ℝ)) from rfl] at h00
    rw [i16_scaled_eq_zero (by decide : i16_from_le (byteAt C3_packet 23)
        (byteAt C3_packet (23 + 1)) = 0),
      i16_scaled_eq_zero (by decide : i16_from_le (byteAt C3_packet 25)
        (byteAt C3_packet (25 + 1)) = 0)] at h00
    norm_num at h00

/-- C3 amended: in auto mode the decoder first reads bytes [19..36] as nine
signed 16-bit little-endian values scaled by `2^-14` forming a row-major 3×3
matrix, and keeps the matrix interpretation iff every row's *squared*
Euclidean norm lies in [0.5, 1.5] (equivalently, Euclidean norm in
[√0.5, √1.5]) and every pairwise row dot-product has absolute value < 0.7;
exactly otherwise it decodes bytes [19..26] as the quaternion [w, x, y, z]. -/
theorem C3_amended_squared_norm_gate :
    (∀ data : List Byte, parse_rotation_matrix data =
      ⟨(i16_from_le (byteAt data 19) (byteAt data 20) : ℚ) / 16384,
       (i16_from_le (byteAt data 21) (byteAt data 22) : ℚ) / 16384,
       (i16_from_le (byteAt data 23) (byteAt data 24) : ℚ) / 16384,
       (i16_from_le (byteAt data 25) (byteAt data 26) : ℚ) / 16384,
       (i16_from_le (byteAt data 27) (byteAt data 28) : ℚ) / 16384,
       (i16_from_le (byteAt data 29) (byteAt data 30) : ℚ) / 16384,
       (i16_from_le (byteAt data 31) (byteAt data 32) : ℚ) / 16384,
       (i16_from_le (byteAt data 33) (byteAt data 34) : ℚ) / 16384,
       (i16_from_le (byteAt data 35) (byteAt data 36) : ℚ) / 16384⟩) ∧
    (∀ m : QMat3,
      is_plausible_rotation_matrix m = true ↔
        ((1/2 ≤ m.m00 * m.m00 + m.m01 * m.m01 + m.m02 * m.m02 ∧
            m.m00 * m.m00 + m.m01 * m.m01 + m.m02 * m.m02 ≤ 3/2) ∧
         (1/2 ≤ m.m10 * m.m10 + m.m11 * m.m11 + m.m12 * m.m12 ∧
            m.m10 * m.m10 + m.m11 * m.m11 + m.m12 * m.m12 ≤ 3/2) ∧
         (1/2 ≤ m.m20 * m.m20 + m.m21 * m.m21 + m.m22 * m.m22 ∧
            m.m20 * m.m20 + m.m21 * m.m21 + m.m22 * m.m22 ≤ 3/2) ∧
         |m.m00 * m.m10 + m.m01 * m.m11 + m.m02 * m.m12| < 7/10 ∧
         |m.m00 * m.m20 + m.m01 * m.m21 + m.m02 * m.m22| < 7/10 ∧
         |m.m10 * m.m20 + m.m11 * m.m21 + m.m12 * m.m22| < 7/10)) ∧
    (∀ (data : List Byte) (h : ℝ), REPORT_SIZE ≤ data.length →
      byteAt data 0 = 0x01 → byteAt data 1 = 0xA2 → byteAt data 2 = 0x33 →
      ∃ s, parse_slam_packet .auto data h = some s ∧
        (is_plausible_rotation_matrix (parse_rotation_matrix data) = true →
          s.pose.rotation = (parse_rotation_matrix data).toR ∧
          s.pose.quaternion =
            ((rotation_to_quaternion (parse_rotation_matrix data).toR).x,
             (rotation_to_quaternion (parse_rotation_matrix data).toR).y,
             (rotation_to_quaternion (parse_rotation_matrix data).toR).z,
             (rotation_to_quaternion (parse_rotation_matrix data).toR).w)) ∧
        (is_plausible_rotation_matrix (parse_rotation_matrix data) = false →
          s.pose.rotation = quaternion_to_rotation
              ((i16_scaled data 19 : ℚ) : ℝ) ((i16_scaled data 21 : ℚ) : ℝ)
              ((i16_scaled data 23 : ℚ) : ℝ) ((i16_scaled data 25 : ℚ) : ℝ) ∧
          s.pose.quaternion =
            (((i16_scaled data 21 : ℚ) : ℝ), ((i16_scaled data 23 : ℚ) : ℝ),
             ((i16_scaled data 25 : ℚ) : ℝ), ((i16_scaled data 19 : ℚ) : ℝ)))) := by
  refine ⟨?_, ?_, ?_⟩
  · intro data
    simp only [parse_rotation_matrix, i16_scaled, SCALE, mul_one_div,
      Nat.reduceAdd]
  · intro m
    simp only [is_plausible_rotation_matrix]
    split_ifs with hc
    · simp only [Bool.false_eq_true, false_iff]
      rintro ⟨hA, hB, hC, -⟩
      rcases hc with hn | hn | hn
      exacts [hn hA, hn hB, hn hC]
    · push_neg at hc
      simp only [Bool.and_eq_true, decide_eq_true_eq]
      constructor
      · rintro ⟨⟨h4, h5⟩, h6⟩
        exact ⟨⟨hc.1.1, hc.1.2⟩, ⟨hc.2.1.1, hc.2.1.2⟩, ⟨hc.2.2.1, hc.2.2.2⟩,
          h4, h5, h6⟩
      · rintro ⟨-, -, -, h4, h5, h6⟩
        exact ⟨⟨h4, h5⟩, h6⟩
  · intro data h hlen h0 h1 h2
    by_cases hp : is_plausible_rotation_matrix (parse_rotation_matrix data)
      = true
    · exact ⟨_, parse_auto_matrix_branch data h hlen h0 h1 h2 hp,
        fun _ => ⟨rfl, rfl⟩,
        fun hfalse => absurd hfalse (by rw [hp]; simp)⟩
    · have hp' : is_plausible_rotation_matrix (parse_rotation_matrix data)
          = false := Bool.not_eq_true _ ▸ eq_false_of_ne_true hp
      exact ⟨_, parse_auto_quat_branch data h hlen h0 h1 h2 hp',
        fun htrue => absurd htrue hp, fun _ => ⟨rfl, rfl⟩⟩

/-- Witness for C3 (amended): the E1 packet parses and its gate facts hold. -/
theorem C3_witness :
    ∃ s, parse_slam_packet .auto E1_packet 0 = some s := by
  obtain ⟨s, hs, -, -⟩ := C3_amended_squared_norm_gate.2.2 E1_packet 0
    (by decide) (by decide) (by decide) (by decide)
  exact ⟨s, hs⟩

-- ## Claim C8

/-- C8: the stream's channel has fixed capacity 256 and the reader enqueues
only with a non-blocking `try_send`: `dispatch_sample` is a total function
(never blocks) such that, for every successfully parsed sample, a full
channel drops the sample and leaves both the channel and the stop flag
unchanged, a disconnected channel sets the stop flag, and otherwise the
sample is appended; an unparseable frame changes nothing. -/
theorem C8_bounded_lossy_channel :
    slamChannelCapacity = 256 ∧
    ∀ (mode : RotationParseMode) (data : List Byte) (h : ℝ)
      (st : ChannelState) (stop : Bool),
      (parse_slam_packet mode data h = none →
        dispatch_sample mode data h st stop = (st, stop)) ∧
      (∀ s, parse_slam_packet mode data h = some s →
        st.receiverAlive = true → slamChannelCapacity ≤ st.queue.length →
        dispatch_sample mode data h st stop = (st, stop)) ∧
      ((parse_slam_packet mode data h).isSome = true →
        st.receiverAlive = false →
        dispatch_sample mode data h st stop = (st, true)) ∧
      (∀ s, parse_slam_packet mode data h = some s →
        st.receiverAlive = true → st.queue.length < slamChannelCapacity →
        dispatch_sample mode data h st stop =
          ({ st with queue := st.queue ++ [s] }, stop)) := by
  refine ⟨rfl, fun mode data h st stop => ⟨?_, ?_, ?_, ?_⟩⟩
  · intro hnone
    unfold dispatch_sample
    rw [hnone]
  · intro s hs halive hfull
    unfold dispatch_sample trySend
    rw [hs]
    dsimp only
    rw [if_neg (by rw [halive]; simp), if_pos hfull]
  · intro hsome hdead
    obtain ⟨s, hs⟩ := Option.isSome_iff_exists.mp hsome
    unfold dispatch_sample trySend
    rw [hs]
    dsimp only
    rw [if_pos hdead]
  · intro s hs halive hlt
    unfold dispatch_sample trySend
    rw [hs]
    dsimp only
    rw [if_neg (by rw [halive]; simp), if_neg (not_le.mpr hlt)]

/-- Witness for C8: an unparseable (empty) frame leaves an empty, alive
channel and the stop flag untouched. -/
theorem C8_witness :
    dispatch_sample .auto [] 0 ⟨[], true⟩ false = (⟨[], true⟩, false) :=
  (C8_bounded_lossy_channel.2 .auto [] 0 ⟨[], true⟩ false).1 rfl

-- ## Claim C1

theorem i16_scaled_eq {data : List Byte} {i : ℕ} {n : ℤ}
    (h : i16_from_le (byteAt data i) (byteAt data (i + 1)) = n) :
    i16_scaled data i = (n : ℚ) / 16384 := by
  unfold i16_scaled
  rw [h, SCALE, mul_one_div]

/-- Squared norm of the quaternion produced by the last (z-dominant) branch
of `rotation_to_quaternion`. -/
theorem rotation_to_quaternion_normSq_last (m : RMat3) (u : ℝ)
    (hueq : 1 + m.m22 - m.m00 - m.m11 = u) (hu : 0 < u)
    (hc1 : ¬ 0 < m.m00 + m.m11 + m.m22)
    (hc2 : ¬ (m.m11 < m.m00 ∧ m.m22 < m.m00))
    (hc3 : ¬ m.m22 < m.m11) :
    (rotation_to_quaternion m).w ^ 2 + (rotation_to_quaternion m).x ^ 2 +
      (rotation_to_quaternion m).y ^ 2 + (rotation_to_quaternion m).z ^ 2 =
      ((m.m10 - m.m01) ^ 2 + (m.m02 + m.m20) ^ 2 + (m.m12 + m.m21) ^ 2) /
        (4 * u) + u / 4 := by
  unfold rotation_to_quaternion
  rw [if_neg hc1, if_neg hc2, if_neg hc3]
  dsimp only
  rw [hueq]
  have hr2 : Real.sqrt u ^ 2 = u := Real.sq_sqrt hu.le
  have hrne : Real.sqrt u ≠ 0 := ne_of_gt (Real.sqrt_pos.mpr hu)
  have hr4 : Real.sqrt u ^ 4 = u ^ 2 := by
    rw [show Real.sqrt u ^ 4 = (Real.sqrt u ^ 2) ^ 2 by ring, hr2]
  field_simp
  ring_nf
  simp only [hr2, hr4]
  ring

/-- If `x` lies between `(19/20)²` and `(21/20)²` then `√x` is within `1/20`
of 1. -/
theorem abs_sqrt_sub_one_le {x : ℝ} (h1 : (19/20 : ℝ) ^ 2 ≤ x)
    (h2 : x ≤ (21/20 : ℝ) ^ 2) : |Real.sqrt x - 1| ≤ 1/20 := by
  have hl : (19/20 : ℝ) ≤ Real.sqrt x := by
    calc (19/20 : ℝ) = Real.sqrt ((19/20 : ℝ) ^ 2) :=
          (Real.sqrt_sq (by norm_num)).symm
      _ ≤ Real.sqrt x := Real.sqrt_le_sqrt h1
  have hr : Real.sqrt x ≤ 21/20 := by
    calc Real.sqrt x ≤ Real.sqrt ((21/20 : ℝ) ^ 2) := Real.sqrt_le_sqrt h2
      _ = 21/20 := Real.sqrt_sq (by norm_num)
  rw [abs_le]
  constructor <;> linarith

/-- The matrix decoded from the rotation payload of the E1 packet. -/
theorem E1_packet_matrix : parse_rotation_matrix E1_packet =
    ⟨-16286/16384, 826/16384, 1581/16384,
     -678/16384, -16298/16384, 1523/16384,
     1650/16384, 1449/16384, 16236/16384⟩ := by
  unfold parse_rotation_matrix
  rw [i16_scaled_eq (by decide : i16_from_le (byteAt E1_packet 19)
        (byteAt E1_packet (19 + 1)) = -16286),
    i16_scaled_eq (by decide : i16_from_le (byteAt E1_packet 21)
        (byteAt E1_packet (21 + 1)) = 826),
    i16_scaled_eq (by decide : i16_from_le (byteAt E1_packet 23)
        (byteAt E1_packet (23 + 1)) = 1581),
    i16_scaled_eq (by decide : i16_from_le (byteAt E1_packet 25)
        (byteAt E1_packet (25 + 1)) = -678),
    i16_scaled_eq (by decide : i16_from_le (byteAt E1_packet 27)
        (byteAt E1_packet (27 + 1)) = -16298),
    i16_scaled_eq (by decide : i16_from_le (byteAt E1_packet 29)
        (byteAt E1_packet (29 + 1)) = 1523),
    i16_scaled_eq (by decide : i16_from_le (byteAt E1_packet 31)
        (byteAt E1_packet (31 + 1)) = 1650),
    i16_scaled_eq (by decide : i16_from_le (byteAt E1_packet 33)
        (byteAt E1_packet (33 + 1)) = 1449),
    i16_scaled_eq (by decide : i16_from_le (byteAt E1_packet 35)
        (byteAt E1_packet (35 + 1)) = 16236)]
  norm_num

theorem E1_packet_plausible :
    is_plausible_rotation_matrix (parse_rotation_matrix E1_packet) = true := by
  rw [E1_packet_matrix]
  norm_num [is_plausible_rotation_matrix, abs_lt]

/-- C1: the canonical 63-byte pose packet of scenario E1 parses to a sample
with `timestamp_us = 1596313963`, translation componentwise within `1e-3` of
`[0.0210, 0.0018, 0.0275]`, and a quaternion of Euclidean magnitude within
`0.05` of 1. -/
theorem C1_canonical_packet :
    ∃ s, parse_slam_packet .auto E1_packet 0 = some s ∧
      s.pose.timestamp_us = 1596313963 ∧
      |s.pose.translation.1 - 21/1000| < 1/1000 ∧
      |s.pose.translation.2.1 - 18/10000| < 1/1000 ∧
      |s.pose.translation.2.2 - 275/10000| < 1/1000 ∧
      |Real.sqrt (s.pose.quaternion.1 ^ 2 + s.pose.quaternion.2.1 ^ 2 +
          s.pose.quaternion.2.2.1 ^ 2 + s.pose.quaternion.2.2.2 ^ 2) - 1|
        ≤ 1/20 := by
  refine ⟨_, parse_auto_matrix_branch E1_packet 0 (by decide) (by decide)
    (by decide) (by decide) E1_packet_plausible, ?_, ?_, ?_, ?_, ?_⟩
  · decide
  · show |(i32_from_le (byteAt E1_packet 7) (byteAt E1_packet 8)
        (byteAt E1_packet 9) (byteAt E1_packet 10) : ℚ) * SCALE - 21/1000|
        < 1/1000
    rw [show i32_from_le (byteAt E1_packet 7) (byteAt E1_packet 8)
        (byteAt E1_packet 9) (byteAt E1_packet 10) = 344 from by decide,
      abs_lt]
    norm_num [SCALE]
  · show |(i32_from_le (byteAt E1_packet 11) (byteAt E1_packet 12)
        (byteAt E1_packet 13) (byteAt E1_packet 14) : ℚ) * SCALE - 18/10000|
        < 1/1000
    rw [show i32_from_le (byteAt E1_packet 11) (byteAt E1_packet 12)
        (byteAt E1_packet 13) (byteAt E1_packet 14) = 30 from by decide,
      abs_lt]
    norm_num [SCALE]
  · show |(i32_from_le (byteAt E1_packet 15) (byteAt E1_packet 16)
        (byteAt E1_packet 17) (byteAt E1_packet 18) : ℚ) * SCALE - 275/10000|
        < 1/1000
    rw [show i32_from_le (byteAt E1_packet 15) (byteAt E1_packet 16)
        (byteAt E1_packet 17) (byteAt E1_packet 18) = 451 from by decide,
      abs_lt]
    norm_num [SCALE]
  · show |Real.sqrt
        ((rotation_to_quaternion (parse_rotation_matrix E1_packet).toR).x ^ 2 +
         (rotation_to_quaternion (parse_rotation_matrix E1_packet).toR).y ^ 2 +
         (rotation_to_quaternion (parse_rotation_matrix E1_packet).toR).z ^ 2 +
         (rotation_to_quaternion (parse_rotation_matrix E1_packet).toR).w ^ 2)
        - 1| ≤ 1/20
    rw [E1_packet_matrix]
    have hnorm := rotation_to_quaternion_normSq_last
      (⟨-16286/16384, 826/16384, 1581/16384, -678/16384, -16298/16384,
        1523/16384, 1650/16384, 1449/16384, 16236/16384⟩ : QMat3).toR
      (16301/4096)
      (by push_cast [QMat3.toR]; norm_num)
      (by norm_num)
      (by push_cast [QMat3.toR]; norm_num)
      (by push_cast [QMat3.toR]; norm_num)
      (by push_cast [QMat3.toR]; norm_num)
    have hrhs : ((((⟨-16286/16384, 826/16384, 1581/16384, -678/16384,
          -16298/16384, 1523/16384, 1650/16384, 1449/16384,
          16236/16384⟩ : QMat3).toR).m10 -
          ((⟨-16286/16384, 826/16384, 1581/16384, -678/16384, -16298/16384,
          1523/16384, 1650/16384, 1449/16384,
          16236/16384⟩ : QMat3).toR).m01) ^ 2 +
        (((⟨-16286/16384, 826/16384, 1581/16384, -678/16384, -16298/16384,
          1523/16384, 1650/16384, 1449/16384,
          16236/16384⟩ : QMat3).toR).m02 +
          ((⟨-16286/16384, 826/16384, 1581/16384, -678/16384, -16298/16384,
          1523/16384, 1650/16384, 1449/16384,
          16236/16384⟩ : QMat3).toR).m20) ^ 2 +
        (((⟨-16286/16384, 826/16384, 1581/16384, -678/16384, -16298/16384,
          1523/16384, 1650/16384, 1449/16384,
          16236/16384⟩ : QMat3).toR).m12 +
          ((⟨-16286/16384, 826/16384, 1581/16384, -678/16384, -16298/16384,
          1523/16384, 1650/16384, 1449/16384,
          16236/16384⟩ : QMat3).toR).m21) ^ 2) /
          (4 * (16301/4096 : ℝ)) + (16301/4096 : ℝ) / 4 =
        (4273095777/4273209344 : ℝ) := by
      push_cast [QMat3.toR]
      norm_num
    have hval : (rotation_to_quaternion (⟨-16286/16384, 826/16384, 1581/16384,
          -678/16384, -16298/16384, 1523/16384, 1650/16384, 1449/16384,
          16236/16384⟩ : QMat3).toR).x ^ 2 +
        (rotation_to_quaternion (⟨-16286/16384, 826/16384, 1581/16384,
          -678/16384, -16298/16384, 1523/16384, 1650/16384, 1449/16384,
          16236/16384⟩ : QMat3).toR).y ^ 2 +
        (rotation_to_quaternion (⟨-16286/16384, 826/16384, 1581/16384,
          -678/16384, -16298/16384, 1523/16384, 1650/16384, 1449/16384,
          16236/16384⟩ : QMat3).toR).z ^ 2 +
        (rotation_to_quaternion (⟨-16286/16384, 826/16384, 1581/16384,
          -678/16384, -16298/16384, 1523/16384, 1650/16384, 1449/16384,
          16236/16384⟩ : QMat3).toR).w ^ 2 =
        (4273095777/4273209344 : ℝ) := by
      linear_combination hnorm + hrhs
    rw [hval]
    exact abs_sqrt_sub_one_le (by norm_num) (by norm_num)

-- ## Claim C7

/-- The claim's "normalize the sign of w" operation: flip the quaternion's
global sign when its `w` component is negative (stated from the spec's words,
for comparison with the code's round trip). -/
noncomputable def normalize_w_sign (q : Quat) : Quat :=
  if q.w < 0 then ⟨-q.w, -q.x, -q.y, -q.z⟩ else q

/-- C7 counterexample: for the unit quaternion `(0, -1, 0, 0)` the round
trip through `quaternion_to_rotation` and `rotation_to_quaternion` yields
`(0, 1, 0, 0)`; both have `w = 0`, so normalizing the sign of `w` changes
neither, and the two quaternions remain different. The round trip is the
identity only up to a global sign flip, not after `w`-sign normalization. -/
theorem C7_counterexample :
    ((0:ℝ) ^ 2 + (-1:ℝ) ^ 2 + (0:ℝ) ^ 2 + (0:ℝ) ^ 2 = 1) ∧
    rotation_to_quaternion (quaternion_to_rotation 0 (-1) 0 0) =
      ⟨0, 1, 0, 0⟩ ∧
    normalize_w_sign
        (rotation_to_quaternion (quaternion_to_rotation 0 (-1) 0 0)) ≠
      normalize_w_sign ⟨0, -1, 0, 0⟩ := by
  have hrot : rotation_to_quaternion (quaternion_to_rotation 0 (-1) 0 0) =
      ⟨0, 1, 0, 0⟩ := by
    unfold quaternion_to_rotation rotation_to_quaternion
    dsimp only
    rw [if_neg (by norm_num), if_pos (by norm_num : ((1:ℝ) - 2 * (-1 * -1 + 0 * 0)
        < 1 - 2 * (0 * 0 + 0 * 0) ∧ (1:ℝ) - 2 * (-1 * -1 + 0 * 0)
        < 1 - 2 * (0 * 0 + 0 * 0)))]
    have harg : (1:ℝ) + (1 - 2 * (0 * 0 + 0 * 0)) - (1 - 2 * (-1 * -1 + 0 * 0))
        - (1 - 2 * (-1 * -1 + 0 * 0)) = 2 ^ 2 := by norm_num
    rw [harg, Real.sqrt_sq (by norm_num)]
    simp only [Quat.mk.injEq]
    norm_num
  refine ⟨by norm_num, hrot, ?_⟩
  rw [hrot]
  unfold normalize_w_sign
  rw [if_neg (by norm_num), if_neg (by norm_num)]
  simp only [ne_eq, Quat.mk.injEq]
  norm_num

/-- C7 amended: for every unit quaternion `[w, x, y, z]`, converting it to a
matrix with `quaternion_to_rotation` and back with `rotation_to_quaternion`
yields the original quaternion up to a global sign flip: the result is
`(w, x, y, z)` or `(-w, -x, -y, -z)`. -/
theorem C7_amended_roundtrip_up_to_sign (w x y z : ℝ)
    (h : w ^ 2 + x ^ 2 + y ^ 2 + z ^ 2 = 1) :
    rotation_to_quaternion (quaternion_to_rotation w x y z) = ⟨w, x, y, z⟩ ∨
    rotation_to_quaternion (quaternion_to_rotation w x y z) =
      ⟨-w, -x, -y, -z⟩ := by
  unfold quaternion_to_rotation rotation_to_quaternion
  dsimp only
  split_ifs with hc1 hc2 hc3
  · -- trace > 0: w-dominant branch
    have harg : 1 - 2 * (y * y + z * z) + (1 - 2 * (x * x + z * z)) +
        (1 - 2 * (x * x + y * y)) + 1 = (2 * w) ^ 2 := by
      linear_combination (-4) * h
    rw [harg, Real.sqrt_sq_eq_abs]
    have hw2 : 1 / 4 < w ^ 2 := by nlinarith [hc1]
    rcases lt_trichotomy w 0 with hw | hw | hw
    · right
      rw [abs_of_neg (by linarith : 2 * w < 0)]
      have hwne : w ≠ 0 := ne_of_lt hw
      simp only [Quat.mk.injEq]
      exact ⟨by ring, by field_simp; ring, by field_simp; ring,
        by field_simp; ring⟩
    · exfalso
      rw [hw] at hw2
      norm_num at hw2
    · left
      rw [abs_of_pos (by linarith : (0:ℝ) < 2 * w)]
      have hwne : w ≠ 0 := ne_of_gt hw
      simp only [Quat.mk.injEq]
      exact ⟨by ring, by field_simp; ring, by field_simp; ring,
        by field_simp; ring⟩
  · -- x-dominant branch
    have harg : 1 + (1 - 2 * (y * y + z * z)) - (1 - 2 * (x * x + z * z)) -
        (1 - 2 * (x * x + y * y)) = (2 * x) ^ 2 := by ring
    rw [harg, Real.sqrt_sq_eq_abs]
    have hx2 : y ^ 2 < x ^ 2 := by nlinarith [hc2.1]
    rcases lt_trichotomy x 0 with hx | hx | hx
    · right
      rw [abs_of_neg (by linarith : 2 * x < 0)]
      have hxne : x ≠ 0 := ne_of_lt hx
      simp only [Quat.mk.injEq]
      exact ⟨by field_simp; ring, by ring, by field_simp; ring,
        by field_simp; ring⟩
    · exfalso
      rw [hx] at hx2
      nlinarith [sq_nonneg y]
    · left
      rw [abs_of_pos (by linarith : (0:ℝ) < 2 * x)]
      have hxne : x ≠ 0 := ne_of_gt hx
      simp only [Quat.mk.injEq]
      exact ⟨by field_simp; ring, by ring, by field_simp; ring,
        by field_simp; ring⟩
  · -- y-dominant branch
    have harg : 1 + (1 - 2 * (x * x + z * z)) - (1 - 2 * (y * y + z * z)) -
        (1 - 2 * (x * x + y * y)) = (2 * y) ^ 2 := by ring
    rw [harg, Real.sqrt_sq_eq_abs]
    have hy2 : z ^ 2 < y ^ 2 := by nlinarith [hc3]
    rcases lt_trichotomy y 0 with hy | hy | hy
    · right
      rw [abs_of_neg (by linarith : 2 * y < 0)]
      have hyne : y ≠ 0 := ne_of_lt hy
      simp only [Quat.mk.injEq]
      exact ⟨by field_simp; ring, by field_simp; ring, by ring,
        by field_simp; ring⟩
    · exfalso
      rw [hy] at hy2
      nlinarith [sq_nonneg z]
    · left
      rw [abs_of_pos (by linarith : (0:ℝ) < 2 * y)]
      have hyne : y ≠ 0 := ne_of_gt hy
      simp only [Quat.mk.injEq]
      exact ⟨by field_simp; ring, by field_simp; ring, by ring,
        by field_simp; ring⟩
  · -- z-dominant branch
    have harg : 1 + (1 - 2 * (x * x + y * y)) - (1 - 2 * (y * y + z * z)) -
        (1 - 2 * (x * x + z * z)) = (2 * z) ^ 2 := by ring
    rw [harg, Real.sqrt_sq_eq_abs]
    rcases lt_trichotomy z 0 with hz | hz | hz
    · right
      rw [abs_of_neg (by linarith : 2 * z < 0)]
      have hzne : z ≠ 0 := ne_of_lt hz
      simp only [Quat.mk.injEq]
      exact ⟨by field_simp; ring, by field_simp; ring, by field_simp; ring,
        by ring⟩
    · exfalso
      subst hz
      have h3 := not_lt.mp hc3
      rcases not_and_or.mp hc2 with h2 | h2
      · have h2' := not_lt.mp h2
        exact hc1 (by nlinarith [h3, h2'])
      · have h2' := not_lt.mp h2
        exact hc1 (by nlinarith [h3, h2'])
    · left
      rw [abs_of_pos (by linarith : (0:ℝ) < 2 * z)]
      have hzne : z ≠ 0 := ne_of_gt hz
      simp only [Quat.mk.injEq]
      exact ⟨by field_simp; ring, by field_simp; ring, by field_simp; ring,
        by ring⟩

/-- Witness for C7 (amended), at the identity quaternion. -/
theorem C7_witness :
    ((1:ℝ) ^ 2 + (0:ℝ) ^ 2 + (0:ℝ) ^ 2 + (0:ℝ) ^ 2 = 1) ∧
    (rotation_to_quaternion (quaternion_to_rotation 1 0 0 0) = ⟨1, 0, 0, 0⟩ ∨
     rotation_to_quaternion (quaternion_to_rotation 1 0 0 0) =
       ⟨-1, -0, -0, -0⟩) :=
  ⟨by norm_num, C7_amended_roundtrip_up_to_sign 1 0 0 0 (by norm_num)⟩

end Xvisio
